import Mathlib

/-
Verification development for the samaraenergo personal-account client core:
the temporal codec, the deferred-field resolver, the response envelope
unwrapper, the meter-reading submission builder and the QR-code locator,
shallowly embedded from the Python sources
(samaraenergo/client/models.py, samaraenergo/client/client.py,
samaraenergo/client/qrcode.py).
-/

/-! ### Decimal digit strings

Embedding of Python decimal formatting of a natural number (as produced by
f-strings and by the format specifier used in the temporal codec), together
with reading a digit string back as a number (as the regular-expression
group of the date pattern is read by the datetime coercion). -/

def digitChar : ℕ → Char
  | 0 => '0'
  | 1 => '1'
  | 2 => '2'
  | 3 => '3'
  | 4 => '4'
  | 5 => '5'
  | 6 => '6'
  | 7 => '7'
  | 8 => '8'
  | _ => '9'

def natToDigitsAux : ℕ → ℕ → List Char
  | 0, _ => []
  | fuel + 1, n =>
    if n < 10 then [digitChar n]
    else natToDigitsAux fuel (n / 10) ++ [digitChar (n % 10)]

def natToDigits (n : ℕ) : List Char :=
  natToDigitsAux (n + 1) n

def digitsToNat (cs : List Char) : ℕ :=
  cs.foldl (fun a c => 10 * a + (c.toNat - 48)) 0

theorem digitChar_toNat {n : ℕ} (h : n < 10) : (digitChar n).toNat - 48 = n := by
  interval_cases n <;> rfl

theorem digitChar_isDigit {n : ℕ} (h : n < 10) : (digitChar n).isDigit = true := by
  interval_cases n <;> rfl

theorem digitsToNat_foldl (cs : List Char) (a : ℕ) :
    cs.foldl (fun x c => 10 * x + (c.toNat - 48)) a = a * 10 ^ cs.length + digitsToNat cs := by
  induction cs generalizing a with
  | nil => simp [digitsToNat]
  | cons c cs ih =>
    have h2 : digitsToNat (c :: cs) = (c.toNat - 48) * 10 ^ cs.length + digitsToNat cs := by
      have := ih (10 * 0 + (c.toNat - 48))
      simpa [digitsToNat] using this
    simp only [List.foldl_cons, List.length_cons]
    rw [ih, h2]
    ring

theorem digitsToNat_append (xs ys : List Char) :
    digitsToNat (xs ++ ys) = digitsToNat xs * 10 ^ ys.length + digitsToNat ys := by
  have : digitsToNat (xs ++ ys) = ys.foldl (fun x c => 10 * x + (c.toNat - 48)) (digitsToNat xs) := by
    simp [digitsToNat, List.foldl_append]
  rw [this, digitsToNat_foldl]

theorem digitsToNat_single {n : ℕ} (h : n < 10) : digitsToNat [digitChar n] = n := by
  simp [digitsToNat, digitChar_toNat h]

theorem digitsToNat_natToDigitsAux {fuel n : ℕ} (h : n < 10 ^ fuel) :
    digitsToNat (natToDigitsAux fuel n) = n := by
  induction fuel generalizing n with
  | zero =>
    simp only [pow_zero, Nat.lt_one_iff] at h
    simp [natToDigitsAux, h, digitsToNat]
  | succ fuel ih =>
    by_cases h10 : n < 10
    · simp [natToDigitsAux, h10, digitsToNat_single h10]
    · have hdiv : n / 10 < 10 ^ fuel := by
        rw [Nat.div_lt_iff_lt_mul (by norm_num)]
        calc n < 10 ^ (fuel + 1) := h
          _ = 10 ^ fuel * 10 := by ring
      have hmod : n % 10 < 10 := Nat.mod_lt _ (by norm_num)
      rw [natToDigitsAux, if_neg h10, digitsToNat_append, ih hdiv, digitsToNat_single hmod]
      simp only [List.length_singleton, pow_one]
      omega

theorem digitsToNat_natToDigits (n : ℕ) : digitsToNat (natToDigits n) = n :=
  digitsToNat_natToDigitsAux
    (lt_of_lt_of_le (Nat.lt_pow_self (by norm_num) n)
      (Nat.pow_le_pow_right (by norm_num) (Nat.le_succ n)))

theorem natToDigitsAux_all_isDigit {fuel n : ℕ} :
    ∀ c ∈ natToDigitsAux fuel n, c.isDigit = true := by
  induction fuel generalizing n with
  | zero => simp [natToDigitsAux]
  | succ fuel ih =>
    by_cases h10 : n < 10
    · simp only [natToDigitsAux, if_pos h10, List.mem_singleton]
      intro c hc
      subst hc
      exact digitChar_isDigit h10
    · rw [natToDigitsAux, if_neg h10]
      intro c hc
      rw [List.mem_append, List.mem_singleton] at hc
      rcases hc with hc | rfl
      · exact ih c hc
      · exact digitChar_isDigit (Nat.mod_lt _ (by norm_num))

theorem natToDigits_all_isDigit {n : ℕ} : ∀ c ∈ natToDigits n, c.isDigit = true :=
  natToDigitsAux_all_isDigit

theorem natToDigits_ne_nil (n : ℕ) : natToDigits n ≠ [] := by
  rw [natToDigits, natToDigitsAux]
  by_cases h10 : n < 10 <;> simp [h10]

theorem natToDigits_injective {m n : ℕ} (h : natToDigits m = natToDigits n) : m = n := by
  have hm := digitsToNat_natToDigits m
  rw [h, digitsToNat_natToDigits] at hm
  omega

theorem takeWhile_append_stop {p : Char → Bool} {l t : List Char} {x : Char}
    (hl : ∀ c ∈ l, p c = true) (hx : p x = false) :
    (l ++ x :: t).takeWhile p = l := by
  induction l with
  | nil => simp [List.takeWhile, hx]
  | cons a l ih =>
    have ha : p a = true := hl a (List.mem_cons_self a l)
    simp [List.takeWhile, ha, ih fun c hc => hl c (List.mem_cons_of_mem a hc)]

theorem dropWhile_append_stop {p : Char → Bool} {l t : List Char} {x : Char}
    (hl : ∀ c ∈ l, p c = true) (hx : p x = false) :
    (l ++ x :: t).dropWhile p = x :: t := by
  induction l with
  | nil => simp [List.dropWhile, hx]
  | cons a l ih =>
    have ha : p a = true := hl a (List.mem_cons_self a l)
    simp [List.dropWhile, ha, ih fun c hc => hl c (List.mem_cons_of_mem a hc)]

/-! ### Python exception classes reachable from the embedded code -/

inductive PyErr where
  | valueError (msg : String)
  | typeError (msg : String)
  | assertionError
  | fileNotFoundError (msg : String)
deriving Repr, DecidableEq

/-! ### Generic JSON values

The untyped `Any` data that the pydantic `before`-mode validators in
models.py receive. Objects keep their fields as an association list (Python
dict keys are unique; lookup returns the first match). -/

inductive Json where
  | null
  | bool (b : Bool)
  | num (q : ℚ)
  | str (s : String)
  | arr (xs : List Json)
  | obj (fields : List (String × Json))
deriving Repr

def Json.lookup : Json → String → Option Json
  | .obj fields, k => fields.lookup k
  | _, _ => none

def Json.hasKey (j : Json) (k : String) : Bool :=
  (j.lookup k).isSome

def Json.isObj : Json → Bool
  | .obj _ => true
  | _ => false

/-! ### Temporal codec (models.py: `_NONE_DATETIME`, `_RE_DATE`,
`_datetime_validator`, `_datetime_serializer`)

Dates are modelled in the proleptic Gregorian calendar that Python
`datetime` uses; a timezone-aware datetime is identified by its instant
(microseconds since the Unix epoch), which is exactly what Python equality
on aware datetimes compares and what `.timestamp()` exposes. -/

def NONE_DATETIME : String := "/Date(253402214400000)/"

/-- The character list of the literal prefix `/Date(` of `_RE_DATE`. -/
def wireHead : List Char := ['/', 'D', 'a', 't', 'e', '(']

/-- The character list of the literal tail `000)/` of `_RE_DATE`
(the three mandatory zero digit characters and the closing `)/`). -/
def wireTail : List Char := ['0', '0', '0', ')', '/']

/-- Embedding of `re.fullmatch` of `_RE_DATE = r"\/Date\((\d+)000\)\/"`: on success returns
the text of capture group 1 (all digits but the trailing three zeros). -/
def reDateFullmatch : List Char → Option (List Char)
  | '/' :: 'D' :: 'a' :: 't' :: 'e' :: '(' :: rest =>
    if rest.dropWhile Char.isDigit = [')', '/'] then
      match (rest.takeWhile Char.isDigit).reverse with
      | '0' :: '0' :: '0' :: d :: ds => some (d :: ds).reverse
      | _ => none
    else none
  | _ => none

/-- The validator `_datetime_validator` restricted to string input (the `isinstance(data,
dt.date)` pass-through branch concerns already-decoded values, not wire
strings): `.ok none` is the sentinel result, `.ok (some g)` is the matched
group-1 digit string handed on to pydantic. -/
def datetimeValidator (s : String) : Except PyErr (Option String) :=
  if s = NONE_DATETIME then .ok none
  else
    match reDateFullmatch s.data with
    | some g => .ok (some ⟨g⟩)
    | none => .error (.valueError "expected a string of the form /Date(milliseconds)/")

/-- A Python `datetime.date` (proleptic Gregorian). -/
structure PyDate where
  year : ℤ
  month : ℕ
  day : ℕ
deriving Repr, DecidableEq

/-- Days from 1970-01-01 of a proleptic Gregorian date (the civil-from-days
arithmetic underlying Python `datetime.timestamp` for midnight UTC). -/
def daysFromCivil (d : PyDate) : ℤ :=
  let y : ℤ := if d.month ≤ 2 then d.year - 1 else d.year
  let era : ℤ := Int.fdiv y 400
  let yoe : ℤ := y - era * 400
  let mp : ℤ := Int.emod ((d.month : ℤ) + 9) 12
  let doy : ℤ := Int.fdiv (153 * mp + 2) 5 + (d.day : ℤ) - 1
  let doe : ℤ := yoe * 365 + Int.fdiv yoe 4 - Int.fdiv yoe 100 + doy
  era * 146097 + doe - 719468

/-- Microseconds since the epoch of midnight UTC of a calendar date. -/
def PyDate.midnightMicros (d : PyDate) : ℤ :=
  daysFromCivil d * 86400000000

/-- The values the serializer `_datetime_serializer` can receive
(`dt.date | None`, where `dt.datetime` is a subclass of `dt.date`):
`noneV` is `None`; `dateOnly` a plain `dt.date`; `naive` a `dt.datetime`
with `tzinfo is None` (its wall-clock fields are irrelevant to the
embedding because the serializer rejects it); `aware` a timezone-aware
`dt.datetime`, identified by its instant in microseconds since the epoch. -/
inductive PyDateVal where
  | noneV
  | dateOnly (d : PyDate)
  | naive (wallMicros : ℤ)
  | aware (epochMicros : ℤ)
deriving Repr, DecidableEq

/-- Round half to even, as Python `format(x, ".0f")` rounds. -/
def roundHalfEven (q : ℚ) : ℤ :=
  let f := ⌊q⌋
  let frac := q - f
  if frac < 1 / 2 then f
  else if 1 / 2 < frac then f + 1
  else if Int.emod f 2 = 0 then f else f + 1

/-- Python `f"{x:.0f}"` for a real value: the rounded integer in decimal,
with a minus sign whenever the input is negative (so `-0.4` prints `-0`). -/
def fmtDot0f (q : ℚ) : List Char :=
  (if q < 0 then ['-'] else []) ++ natToDigits (roundHalfEven q).natAbs

/-- The f-string `f"/Date({x.timestamp():.0f}000)/"` applied to a timestamp
of `q` seconds. -/
def wireOfSeconds (q : ℚ) : String :=
  ⟨wireHead ++ fmtDot0f q ++ wireTail⟩

/-- The serializer `_datetime_serializer`. A plain date is first replaced by
`dt.datetime(x.year, x.month, x.day, tzinfo=dt.UTC)`; a naive datetime is
rejected; otherwise the timestamp in seconds is formatted with `.0f`. -/
def datetimeSerializer : PyDateVal → Except PyErr String
  | .noneV => .ok NONE_DATETIME
  | .dateOnly d => .ok (wireOfSeconds ((d.midnightMicros : ℚ) / 1000000))
  | .naive _ => .error (.valueError "naive datetime is not supported")
  | .aware em => .ok (wireOfSeconds ((em : ℚ) / 1000000))

/-- Modelled from the spec: the string-to-datetime coercion that pydantic
applies after `_datetime_validator` returns the group-1 digit string is not
part of the repository sources; per the spec the payload is a whole-second
epoch value and decodes "to an absolute instant (UTC-based)". -/
def coerceSecondsString (g : String) : PyDateVal :=
  .aware ((digitsToNat g.data : ℤ) * 1000000)

/-- The full decode path of a `DateTime` field: `_datetime_validator`
followed by the pydantic coercion of the digit string. -/
def decodeDateTime (s : String) : Except PyErr PyDateVal :=
  match datetimeValidator s with
  | .error e => .error e
  | .ok none => .ok .noneV
  | .ok (some g) => .ok (coerceSecondsString g)

/-! ### Deferred-field resolver (models.py: `_deferrable_validator`) -/

/-- The validator `_deferrable_validator(data, *, multiple)`: non-dict data passes through;
a dict with the `__deferred` key resolves to `[]` (multiple) or `None`
(single); otherwise the returned value is `data["results"] if multiple else
data`, the `KeyError` of a missing `results` key (only reachable when
`multiple` is true) being converted to a `ValueError`. -/
def deferrableValidator (data : Json) (multiple : Bool) : Except PyErr Json :=
  match data with
  | .obj _ =>
    if data.hasKey "__deferred" then
      .ok (if multiple then .arr [] else .null)
    else if multiple then
      match data.lookup "results" with
      | some v => .ok v
      | none => .error (.valueError "expected key results")
    else .ok data
  | _ => .ok data

/-- The resolver as instantiated for single-valued navigation properties
(`Deferrable[T]`). -/
def resolveSingle (data : Json) : Except PyErr Json :=
  deferrableValidator data false

/-- The resolver as instantiated for collection-valued navigation properties
(`DeferrableList[T]`). -/
def resolveCollection (data : Json) : Except PyErr Json :=
  deferrableValidator data true

/-! ### Envelope unwrapper (models.py: `ResponseModel.before_validator`) -/

/-- The validator `ResponseModel.before_validator`: requires a dict, then evaluates
`data["d"]["results"]`, converting a `KeyError` to a `ValueError` naming the
expected keys. Subscripting a non-dict value found under `d` raises a
`TypeError` in Python, which the `except KeyError` clause does not catch. -/
def beforeValidator (data : Json) : Except PyErr Json :=
  match data with
  | .obj _ =>
    match data.lookup "d" with
    | none => .error (.valueError "expected the consecutive keys d and results")
    | some dv =>
      match dv with
      | .obj _ =>
        match dv.lookup "results" with
        | some r => .ok r
        | none => .error (.valueError "expected the consecutive keys d and results")
      | _ => .error (.typeError "value under key d is not subscriptable by a string")
  | _ => .error (.valueError "expected a JSON object")

/-! ### Meter-reading submission builder (client.py: `SamaraEnergoClient.set_value`)

Only the pure prefix of `set_value` is embedded: everything that runs
before (and decides whether) any network request is issued — the length
assertion, the construction of the `MeterReadingResult` records, the
primary/secondary split and the attachment of the dependents to the
primary. The primary record is the one serialized into the POST body. -/

inductive MRR where
  | mk (dependentMeterReadingResults : List MRR) (deviceID : String)
      (meterReadingNoteID : String) (readingDateTime : ℤ)
      (readingResult : ℚ) (registerID : String)
deriving Repr

def MRR.dependentMeterReadingResults : MRR → List MRR
  | .mk deps _ _ _ _ _ => deps

def MRR.deviceID : MRR → String
  | .mk _ d _ _ _ _ => d

def MRR.meterReadingNoteID : MRR → String
  | .mk _ _ n _ _ _ => n

def MRR.readingDateTime : MRR → ℤ
  | .mk _ _ _ t _ _ => t

def MRR.readingResult : MRR → ℚ
  | .mk _ _ _ _ r _ => r

def MRR.registerID : MRR → String
  | .mk _ _ _ _ _ i => i

/-- The assignment `primary.DependentMeterReadingResults = secondary`,
modelled functionally (the record is mutated exactly once, before
serialization). -/
def MRR.withDependents : MRR → List MRR → MRR
  | .mk _ d n t r i, deps => .mk deps d n t r i

/-- Python `f"{id:03}"` for a natural number. -/
def pad3 (n : ℕ) : String :=
  let s := natToDigits n
  ⟨List.replicate (3 - s.length) '0' ++ s⟩

/-- The list comprehension of `set_value`: one `MeterReadingResult` per
value, enumerated from 1, with empty dependents, note source `"920"` and
register id `f"{id:03}"`. -/
def buildResults (deviceId : String) (now : ℤ) : ℕ → List ℚ → List MRR
  | _, [] => []
  | i, v :: vs =>
    .mk [] deviceId "920" now v (pad3 i) :: buildResults deviceId now (i + 1) vs

/-- The pure prefix of `set_value(*values, device_id)`: the `assert
1 <= len(values) <= 3` precondition, then the record construction and the
primary/secondary split; the returned record is the one whose
`model_dump_json()` is POSTed. -/
def setValue (values : List ℚ) (deviceId : String) (now : ℤ) : Except PyErr MRR :=
  if 1 ≤ values.length ∧ values.length ≤ 3 then
    match buildResults deviceId now 1 values with
    | [] => .error (.valueError "not enough values to unpack")
    | primary :: secondary => .ok (primary.withDependents secondary)
  else .error .assertionError

/-! ### QR locator (qrcode.py: `find_qrcode`)

A page is the list of blocks of `page.get_text("dict")["blocks"]`; for the
geometry only the pixel width/height matter and the raw image bytes are
carried opaquely (a block without an `image` key, or with falsy empty
image bytes, is modelled by `image = ""`, which the code skips either
way). Image objects are modelled symbolically: `decoded` is
`PIL.Image.open(...).convert("RGB")`, `crop` its `.crop(box)`. -/

structure Block where
  image : String
  width : ℕ
  height : ℕ
deriving Repr, DecidableEq

inductive Img where
  | decoded (bytes : String)
  | crop (i : Img) (left top right bottom : ℕ)
deriving Repr, DecidableEq

/-- The scan of `find_qrcode`, page decoding elided: the scan over the block list.
A block is skipped when it has no truthy image payload, when its height is
under 400 or when `width / height` falls outside `[0.9, 1.1]`; the first
surviving block is returned, cropped to the square `(0, 0, px, px)` with
`px = min(width, height)` unless its aspect ratio is exactly 1. -/
def findQrcode : List Block → Except PyErr Img
  | [] => .error (.fileNotFoundError "QR code not found in the PDF invoice")
  | b :: rest =>
    if b.image = "" then findQrcode rest
    else if b.height < 400 ∨ ¬((9 : ℚ) / 10 ≤ (b.width : ℚ) / b.height ∧
        (b.width : ℚ) / b.height ≤ 11 / 10) then findQrcode rest
    else if (b.width : ℚ) / b.height = 1 then .ok (.decoded b.image)
    else .ok ((Img.decoded b.image).crop 0 0 (min b.width b.height) (min b.width b.height))

/-- The filter of `find_qrcode` as a predicate on a block with a truthy
image payload: the block survives iff its height is at least 400 and its
aspect ratio lies within `[0.9, 1.1]`. -/
def blockPasses (b : Block) : Prop :=
  b.image ≠ "" ∧ 400 ≤ b.height ∧
    (9 : ℚ) / 10 ≤ (b.width : ℚ) / b.height ∧ (b.width : ℚ) / b.height ≤ 11 / 10

/-- The result `find_qrcode` produces from an accepted block. -/
def acceptedImg (b : Block) : Img :=
  if (b.width : ℚ) / b.height = 1 then .decoded b.image
  else (Img.decoded b.image).crop 0 0 (min b.width b.height) (min b.width b.height)

/-- The rejection rule in the words of the specification, for comparison
with the code: a block is rejected exactly when its aspect ratio is far
from square (outside the `[0.9, 1.1]` band) AND its height is below the
400-pixel minimum. -/
def specRejectRule (b : Block) : Prop :=
  ¬((9 : ℚ) / 10 ≤ (b.width : ℚ) / b.height ∧ (b.width : ℚ) / b.height ≤ 11 / 10) ∧
    b.height < 400

/-! ### Codec lemmas -/

theorem roundHalfEven_intCast (n : ℤ) : roundHalfEven (n : ℚ) = n := by
  unfold roundHalfEven
  rw [Int.floor_intCast]
  norm_num

theorem wireOfSeconds_natCast (s : ℕ) :
    wireOfSeconds ((s : ℕ) : ℚ) = ⟨wireHead ++ natToDigits s ++ wireTail⟩ := by
  unfold wireOfSeconds fmtDot0f
  rw [show ((s : ℕ) : ℚ) = (((s : ℕ) : ℤ) : ℚ) by push_cast; ring]
  rw [roundHalfEven_intCast]
  rw [if_neg (not_lt.mpr (by positivity))]
  simp

theorem micros_div (s : ℕ) : ((((s : ℕ) : ℤ) * 1000000 : ℤ) : ℚ) / 1000000 = ((s : ℕ) : ℚ) := by
  push_cast
  field_simp

theorem sentinel_data :
    NONE_DATETIME.data = wireHead ++ natToDigits 253402214400 ++ wireTail := by
  decide

theorem reDateFullmatch_wire (ds : List Char) (hd : ∀ c ∈ ds, c.isDigit = true)
    (hne : ds ≠ []) :
    reDateFullmatch (wireHead ++ ds ++ wireTail) = some ds := by
  have hall : ∀ c ∈ ds ++ ['0', '0', '0'], c.isDigit = true := by
    intro c hc
    rcases List.mem_append.mp hc with hc | hc
    · exact hd c hc
    · simp only [List.mem_cons, List.not_mem_nil, or_false] at hc
      rcases hc with rfl | rfl | rfl <;> rfl
  show reDateFullmatch
      ('/' :: 'D' :: 'a' :: 't' :: 'e' :: '(' :: (ds ++ ['0', '0', '0', ')', '/'])) = some ds
  rw [show ds ++ ['0', '0', '0', ')', '/'] = (ds ++ ['0', '0', '0']) ++ ')' :: ['/'] by
    simp [List.append_assoc]]
  rw [reDateFullmatch]
  rw [dropWhile_append_stop hall (by rfl), if_pos rfl]
  rw [takeWhile_append_stop hall (by rfl)]
  rw [List.reverse_append]
  have hrne : ds.reverse ≠ [] := by simpa using hne
  obtain ⟨e, es, hrev⟩ := List.exists_cons_of_ne_nil hrne
  rw [hrev]
  show some (e :: es).reverse = some ds
  rw [← hrev, List.reverse_reverse]

theorem wire_ne_sentinel {s : ℕ} (hs : s ≠ 253402214400) :
    (⟨wireHead ++ natToDigits s ++ wireTail⟩ : String) ≠ NONE_DATETIME := by
  intro h
  apply hs
  have hdata : wireHead ++ natToDigits s ++ wireTail
      = wireHead ++ natToDigits 253402214400 ++ wireTail := by
    have h2 := congrArg String.data h
    simpa [sentinel_data] using h2
  rw [List.append_assoc, List.append_assoc] at hdata
  have h3 := List.append_cancel_left hdata
  have h4 := List.append_cancel_right h3
  exact natToDigits_injective h4

theorem decode_wire_of_nat (s : ℕ) (hs : s ≠ 253402214400) :
    decodeDateTime ⟨wireHead ++ natToDigits s ++ wireTail⟩
      = .ok (.aware (((s : ℕ) : ℤ) * 1000000)) := by
  unfold decodeDateTime datetimeValidator
  rw [if_neg (wire_ne_sentinel hs)]
  have hm : reDateFullmatch (String.data ⟨wireHead ++ natToDigits s ++ wireTail⟩)
      = some (natToDigits s) :=
    reDateFullmatch_wire _ natToDigits_all_isDigit (natToDigits_ne_nil s)
  rw [hm]
  simp [coerceSecondsString, digitsToNat_natToDigits]

theorem Json.lookup_obj {j : Json} {k : String} {v : Json} (h : j.lookup k = some v) :
    ∃ f, j = Json.obj f := by
  cases j with
  | obj f => exact ⟨f, rfl⟩
  | null => simp [Json.lookup] at h
  | bool b => simp [Json.lookup] at h
  | num q => simp [Json.lookup] at h
  | str s => simp [Json.lookup] at h
  | arr xs => simp [Json.lookup] at h

/-! ### Claim C1 -/

/-- C1 counterexample: contrary to the claim, the single-valued resolver
does not unwrap a results wrapper (`resolve_single({"results": 5})` returns
the object itself, not `5`) and does not fail with a MissingKeyError on an
object lacking both the deferred marker and the results key (it returns the
object unchanged). -/
theorem c1_counterexample :
    resolveSingle (Json.obj [("results", Json.num 5)])
      = .ok (Json.obj [("results", Json.num 5)]) ∧
    resolveSingle (Json.obj [("results", Json.num 5)]) ≠ .ok (Json.num 5) ∧
    resolveSingle (Json.obj [("x", Json.num 1)]) = .ok (Json.obj [("x", Json.num 1)]) := by
  have h0 : resolveSingle (Json.obj [("results", Json.num 5)])
      = .ok (Json.obj [("results", Json.num 5)]) := rfl
  refine ⟨h0, ?_, rfl⟩
  rw [h0]
  simp

/-- C1 (amended): `resolve_single` passes every non-object payload through
unchanged, maps every object containing the deferred marker key to null,
and returns every other object unchanged as the value itself — the results
wrapper key is not unwrapped and no MissingKeyError is raised for
single-valued navigation properties. -/
theorem c1_resolve_single (j : Json) :
    (j.isObj = false → resolveSingle j = .ok j) ∧
    (j.hasKey "__deferred" = true → resolveSingle j = .ok .null) ∧
    (j.isObj = true → j.hasKey "__deferred" = false → resolveSingle j = .ok j) := by
  cases j with
  | obj fields =>
    refine ⟨fun h => by simp [Json.isObj] at h, fun h => ?_, fun _ h => ?_⟩
    · simp [resolveSingle, deferrableValidator, h]
    · simp [resolveSingle, deferrableValidator, h]
  | null =>
    exact ⟨fun _ => rfl, fun h => by simp [Json.hasKey, Json.lookup] at h, fun h => by
      simp [Json.isObj] at h⟩
  | bool b =>
    exact ⟨fun _ => rfl, fun h => by simp [Json.hasKey, Json.lookup] at h, fun h => by
      simp [Json.isObj] at h⟩
  | num q =>
    exact ⟨fun _ => rfl, fun h => by simp [Json.hasKey, Json.lookup] at h, fun h => by
      simp [Json.isObj] at h⟩
  | str s =>
    exact ⟨fun _ => rfl, fun h => by simp [Json.hasKey, Json.lookup] at h, fun h => by
      simp [Json.isObj] at h⟩
  | arr xs =>
    exact ⟨fun _ => rfl, fun h => by simp [Json.hasKey, Json.lookup] at h, fun h => by
      simp [Json.isObj] at h⟩

/-- C1 witness: the amended behaviour at concrete payloads. -/
theorem c1_witness :
    resolveSingle (Json.str "leaf") = .ok (Json.str "leaf") ∧
    resolveSingle (Json.obj [("__deferred", Json.obj [])]) = .ok .null ∧
    resolveSingle (Json.obj [("results", Json.num 3)])
      = .ok (Json.obj [("results", Json.num 3)]) :=
  ⟨(c1_resolve_single (Json.str "leaf")).1 rfl,
   (c1_resolve_single (Json.obj [("__deferred", Json.obj [])])).2.1 rfl,
   (c1_resolve_single (Json.obj [("results", Json.num 3)])).2.2 rfl rfl⟩

/-! ### Claim C2 -/

/-- C2: `resolve_collection` maps every object containing the deferred
marker key to the empty list, every other object carrying a results key to
the wrapped value, and fails with the MissingKeyError-class ValueError
naming the results key on every object with neither key — resolution is
total over the three object payload shapes. -/
theorem c2_resolve_collection (j : Json) :
    (j.hasKey "__deferred" = true → resolveCollection j = .ok (.arr [])) ∧
    (j.hasKey "__deferred" = false → ∀ v, j.lookup "results" = some v →
      resolveCollection j = .ok v) ∧
    (j.isObj = true → j.hasKey "__deferred" = false → j.lookup "results" = none →
      resolveCollection j = .error (.valueError "expected key results")) := by
  cases j with
  | obj fields =>
    refine ⟨fun h => ?_, fun h v hv => ?_, fun _ h hv => ?_⟩
    · simp [resolveCollection, deferrableValidator, h]
    · simp [resolveCollection, deferrableValidator, h, hv]
    · simp [resolveCollection, deferrableValidator, h, hv]
  | null =>
    exact ⟨fun h => by simp [Json.hasKey, Json.lookup] at h,
      fun _ v hv => by simp [Json.lookup] at hv, fun h => by simp [Json.isObj] at h⟩
  | bool b =>
    exact ⟨fun h => by simp [Json.hasKey, Json.lookup] at h,
      fun _ v hv => by simp [Json.lookup] at hv, fun h => by simp [Json.isObj] at h⟩
  | num q =>
    exact ⟨fun h => by simp [Json.hasKey, Json.lookup] at h,
      fun _ v hv => by simp [Json.lookup] at hv, fun h => by simp [Json.isObj] at h⟩
  | str s =>
    exact ⟨fun h => by simp [Json.hasKey, Json.lookup] at h,
      fun _ v hv => by simp [Json.lookup] at hv, fun h => by simp [Json.isObj] at h⟩
  | arr xs =>
    exact ⟨fun h => by simp [Json.hasKey, Json.lookup] at h,
      fun _ v hv => by simp [Json.lookup] at hv, fun h => by simp [Json.isObj] at h⟩

/-- C2 witness: the three payload shapes at concrete inputs, including
`resolve_collection({"results": [a, b]}) == [a, b]`. -/
theorem c2_witness :
    resolveCollection (Json.obj [("__deferred", Json.str "uri")]) = .ok (.arr []) ∧
    resolveCollection (Json.obj [("results", Json.arr [Json.num 1, Json.num 2])])
      = .ok (.arr [Json.num 1, Json.num 2]) ∧
    resolveCollection (Json.obj [("other", Json.null)])
      = .error (.valueError "expected key results") :=
  ⟨(c2_resolve_collection (Json.obj [("__deferred", Json.str "uri")])).1 rfl,
   (c2_resolve_collection (Json.obj [("results", Json.arr [Json.num 1, Json.num 2])])).2.1
     rfl _ rfl,
   (c2_resolve_collection (Json.obj [("other", Json.null)])).2.2 rfl rfl rfl⟩

/-! ### Claim C7 -/

/-- C7: the envelope unwrapper returns the value under `d.results` whenever
both nesting keys are present; a non-object input, a missing `d` key and a
missing `results` key each fail with a ValueError naming what was expected,
never with a silently-empty result. -/
theorem c7_unwrap_list (j : Json) :
    (∀ dv r, j.lookup "d" = some dv → dv.lookup "results" = some r →
      beforeValidator j = .ok r) ∧
    (j.isObj = false →
      beforeValidator j = .error (.valueError "expected a JSON object")) ∧
    (j.isObj = true → j.lookup "d" = none →
      beforeValidator j = .error (.valueError "expected the consecutive keys d and results")) ∧
    (∀ dv, j.lookup "d" = some dv → dv.isObj = true → dv.lookup "results" = none →
      beforeValidator j = .error (.valueError "expected the consecutive keys d and results")) := by
  refine ⟨fun dv r hd hr => ?_, fun h => ?_, fun h hd => ?_, fun dv hd hobj hr => ?_⟩
  · obtain ⟨f, rfl⟩ := Json.lookup_obj hd
    obtain ⟨f2, rfl⟩ := Json.lookup_obj hr
    simp [beforeValidator, hd, hr]
  · cases j <;> simp_all [Json.isObj, beforeValidator]
  · obtain ⟨f, rfl⟩ : ∃ f, j = Json.obj f := by
      cases j <;> simp_all [Json.isObj]
    simp [beforeValidator, hd]
  · obtain ⟨f, rfl⟩ := Json.lookup_obj hd
    obtain ⟨f2, rfl⟩ : ∃ f2, dv = Json.obj f2 := by
      cases dv <;> simp_all [Json.isObj]
    simp [beforeValidator, hd, hr]

/-- C7 witness: `unwrap_list({"d": {"results": [1, 2]}}) == [1, 2]` and
`unwrap_list({})` is a validation error. -/
theorem c7_witness :
    beforeValidator (Json.obj [("d", Json.obj [("results", Json.arr [Json.num 1, Json.num 2])])])
      = .ok (Json.arr [Json.num 1, Json.num 2]) ∧
    beforeValidator (Json.obj [])
      = .error (.valueError "expected the consecutive keys d and results") :=
  ⟨(c7_unwrap_list (Json.obj [("d", Json.obj [("results", Json.arr [Json.num 1, Json.num 2])])])).1
     (Json.obj [("results", Json.arr [Json.num 1, Json.num 2])]) (Json.arr [Json.num 1, Json.num 2])
     rfl rfl,
   (c7_unwrap_list (Json.obj [])).2.2.1 rfl rfl⟩

/-! ### Claim C3 -/

/-- C3: for 1–3 readings the builder constructs one record per value with
1-based zero-padded register ids (`"001"`, `"002"`, `"003"`), empty
dependents on every constructed record, designates the first as primary and
attaches the remaining ones as its dependents; the primary is the record
serialized. For 0 or more than 3 values it fails with the
ArgumentError-class assertion before anything else happens (in the source
the `assert` precedes the CSRF probe and the POST). -/
theorem c3_submission (values : List ℚ) (dev : String) (now : ℤ) :
    (pad3 1 = "001" ∧ pad3 2 = "002" ∧ pad3 3 = "003") ∧
    (1 ≤ values.length → values.length ≤ 3 →
      ∃ primary,
        setValue values dev now = .ok primary ∧
        primary.registerID = pad3 1 ∧
        some primary.readingResult = values.head? ∧
        primary.deviceID = dev ∧
        primary.meterReadingNoteID = "920" ∧
        primary.dependentMeterReadingResults.map MRR.readingResult = values.tail ∧
        primary.dependentMeterReadingResults.map MRR.registerID
          = (List.range values.tail.length).map (fun i => pad3 (i + 2)) ∧
        ∀ d ∈ primary.dependentMeterReadingResults,
          d.dependentMeterReadingResults = []) ∧
    (values.length = 0 ∨ 4 ≤ values.length →
      setValue values dev now = .error .assertionError) := by
  refine ⟨⟨by decide, by decide, by decide⟩, ?_, ?_⟩
  · intro h1 h3
    rcases values with _ | ⟨a, _ | ⟨b, _ | ⟨c, _ | ⟨d, tl⟩⟩⟩⟩
    · simp at h1
    · exact ⟨MRR.mk [] dev "920" now a (pad3 1), rfl, rfl, rfl, rfl, rfl, rfl, rfl, by intro d hd; exact absurd hd (List.not_mem_nil d)⟩
    · refine ⟨MRR.mk [MRR.mk [] dev "920" now b (pad3 2)] dev "920" now a (pad3 1),
        rfl, rfl, rfl, rfl, rfl, rfl, rfl, ?_⟩
      intro x hx
      cases hx with
      | head => rfl
      | tail _ h => cases h
    · refine ⟨MRR.mk [MRR.mk [] dev "920" now b (pad3 2), MRR.mk [] dev "920" now c (pad3 3)]
        dev "920" now a (pad3 1), rfl, rfl, rfl, rfl, rfl, rfl, rfl, ?_⟩
      intro x hx
      cases hx with
      | head => rfl
      | tail _ h =>
        cases h with
        | head => rfl
        | tail _ h2 => cases h2
    · simp at h3
  · intro h
    unfold setValue
    rw [if_neg (by omega)]

/-- C3 witness: `set_value([10, 11], device_id="D1")` builds primary
register `"001"` with value 10 and one dependent register `"002"` with
value 11; zero values and four values fail the precondition. -/
theorem c3_witness :
    (∃ primary,
      setValue [10, 11] "D1" 0 = .ok primary ∧
      primary.registerID = pad3 1 ∧
      some primary.readingResult = ([10, 11] : List ℚ).head? ∧
      primary.deviceID = "D1" ∧
      primary.meterReadingNoteID = "920" ∧
      primary.dependentMeterReadingResults.map MRR.readingResult = ([10, 11] : List ℚ).tail ∧
      primary.dependentMeterReadingResults.map MRR.registerID
        = (List.range ([10, 11] : List ℚ).tail.length).map (fun i => pad3 (i + 2)) ∧
      ∀ d ∈ primary.dependentMeterReadingResults, d.dependentMeterReadingResults = []) ∧
    setValue [] "D1" 0 = .error .assertionError ∧
    setValue [1, 2, 3, 4] "D1" 0 = .error .assertionError :=
  ⟨(c3_submission [10, 11] "D1" 0).2.1 (by decide) (by decide),
   (c3_submission [] "D1" 0).2.2 (Or.inl rfl),
   (c3_submission [1, 2, 3, 4] "D1" 0).2.2 (Or.inr (by decide))⟩

/-! ### QR locator lemmas -/

theorem findQrcode_cons_reject {b : Block} (rest : List Block) (h : ¬ blockPasses b) :
    findQrcode (b :: rest) = findQrcode rest := by
  by_cases him : b.image = ""
  · conv_lhs => rw [findQrcode]
    rw [if_pos him]
  · have hcond : b.height < 400 ∨ ¬((9 : ℚ) / 10 ≤ (b.width : ℚ) / b.height ∧
        (b.width : ℚ) / b.height ≤ 11 / 10) := by
      by_contra hc
      push_neg at hc
      obtain ⟨h4, hband⟩ := hc
      exact h ⟨him, by omega, hband⟩
    conv_lhs => rw [findQrcode]
    rw [if_neg him, if_pos hcond]

theorem findQrcode_cons_accept {b : Block} (rest : List Block) (h : blockPasses b) :
    findQrcode (b :: rest) = .ok (acceptedImg b) := by
  obtain ⟨him, h4, hlo, hhi⟩ := h
  conv_lhs => rw [findQrcode]
  rw [if_neg him, if_neg (by push_neg; exact ⟨by omega, hlo, hhi⟩)]
  unfold acceptedImg
  split_ifs <;> rfl

/-! ### Claim C8 -/

/-- C8 counterexample: under the claimed rejection rule (ratio far from
square AND height below the threshold) the lone 410×500 block — ratio 0.82,
height 500 — is not rejected and would be accepted as the first passing
block; the code nevertheless rejects it and the locator fails with
NotFoundError. -/
theorem c8_counterexample :
    ¬ specRejectRule ⟨"img", 410, 500⟩ ∧
    findQrcode [⟨"img", 410, 500⟩]
      = .error (.fileNotFoundError "QR code not found in the PDF invoice") := by
  refine ⟨fun h => absurd h.2 (by norm_num), ?_⟩
  rw [findQrcode_cons_reject [] (fun h => ?_)]
  · rfl
  · have := h.2.2.1
    norm_num at this

/-- C8 (amended): a block is rejected exactly when it lacks a truthy image
payload, or its height is below the 400-pixel threshold, OR its aspect
ratio is outside the [0.9, 1.1] band (the source combines the two geometric
conditions with `or`, not `and`); the first block passing the filter is
accepted; if the accepted block's aspect ratio is not exactly 1, the result
is cropped to the square of side min(width, height) anchored at the block's
origin; if no block passes, the locator fails with the
NotFoundError-class FileNotFoundError. -/
theorem c8_locator (blocks : List Block) :
    ((∀ b ∈ blocks, ¬ blockPasses b) →
      findQrcode blocks
        = .error (.fileNotFoundError "QR code not found in the PDF invoice")) ∧
    (∀ pre b post, blocks = pre ++ b :: post → (∀ p ∈ pre, ¬ blockPasses p) →
      blockPasses b → findQrcode blocks = .ok (acceptedImg b)) := by
  constructor
  · intro hall
    induction blocks with
    | nil => rfl
    | cons x xs ih =>
      rw [findQrcode_cons_reject xs (hall x (List.mem_cons_self x xs))]
      exact ih fun p hp => hall p (List.mem_cons_of_mem x hp)
  · intro pre b post hdec hpre hb
    subst hdec
    induction pre with
    | nil => exact findQrcode_cons_accept post hb
    | cons x xs ih =>
      rw [List.cons_append, findQrcode_cons_reject _ (hpre x (List.mem_cons_self x xs))]
      exact ih fun p hp => hpre p (List.mem_cons_of_mem x hp)

/-- C8 witness: on a page whose first image block is a small 100×50 logo
and whose second is a square 450×450 image, the locator skips the logo and
returns the square image uncropped. -/
theorem c8_witness :
    findQrcode [⟨"logo", 100, 50⟩, ⟨"qr", 450, 450⟩] = .ok (acceptedImg ⟨"qr", 450, 450⟩) ∧
    acceptedImg ⟨"qr", 450, 450⟩ = .decoded "qr" := by
  constructor
  · refine (c8_locator [⟨"logo", 100, 50⟩, ⟨"qr", 450, 450⟩]).2
      [⟨"logo", 100, 50⟩] ⟨"qr", 450, 450⟩ [] rfl ?_ ?_
    · intro p hp
      cases hp with
      | head => exact fun h => absurd h.2.1 (by norm_num)
      | tail _ h2 => cases h2
    · exact ⟨by simp, by norm_num, by norm_num, by norm_num⟩
  · unfold acceptedImg
    rw [if_pos (by norm_num)]

/-! ### Claim C9 -/

/-- C9: a page with one image block of height at least 400 and ratio within
the band yields that block; a page whose only image block is 100×400 fails
with NotFoundError; the accept band on the ratio is [0.9, 1.1] inclusive at
both ends (360×400 and 440×400 pass exactly at the bounds), and a 410×500
block — ratio 0.82, height above the threshold — is rejected. -/
theorem c9_boundaries (bytes : String) (w h : ℕ) (hb : bytes ≠ "")
    (h4 : 400 ≤ h) (hlo : (9 : ℚ) / 10 ≤ (w : ℚ) / h) (hhi : (w : ℚ) / h ≤ 11 / 10) :
    findQrcode [⟨bytes, w, h⟩] = .ok (acceptedImg ⟨bytes, w, h⟩) ∧
    findQrcode [⟨bytes, 100, 400⟩]
      = .error (.fileNotFoundError "QR code not found in the PDF invoice") ∧
    blockPasses ⟨bytes, 360, 400⟩ ∧
    blockPasses ⟨bytes, 440, 400⟩ ∧
    findQrcode [⟨bytes, 410, 500⟩]
      = .error (.fileNotFoundError "QR code not found in the PDF invoice") := by
  refine ⟨findQrcode_cons_accept [] ⟨hb, h4, hlo, hhi⟩, ?_, ?_, ?_, ?_⟩
  · rw [findQrcode_cons_reject [] fun hp => absurd hp.2.2.1 (by norm_num)]
    rfl
  · exact ⟨hb, by norm_num, by norm_num, by norm_num⟩
  · exact ⟨hb, by norm_num, by norm_num, by norm_num⟩
  · rw [findQrcode_cons_reject [] fun hp => absurd hp.2.2.1 (by norm_num)]
    rfl

/-- C9 witness: the boundary behaviour at 400×400 pixels. -/
theorem c9_witness :
    findQrcode [⟨"qr", 400, 400⟩] = .ok (acceptedImg ⟨"qr", 400, 400⟩) ∧
    findQrcode [⟨"qr", 100, 400⟩]
      = .error (.fileNotFoundError "QR code not found in the PDF invoice") ∧
    blockPasses ⟨"qr", 360, 400⟩ ∧
    blockPasses ⟨"qr", 440, 400⟩ ∧
    findQrcode [⟨"qr", 410, 500⟩]
      = .error (.fileNotFoundError "QR code not found in the PDF invoice") :=
  c9_boundaries "qr" 400 400 (by simp) (by norm_num) (by norm_num) (by norm_num)

/-! ### Claim C5 -/

/-- C5: the decoder returns null on the fixed sentinel wire string, decodes
any other string matching the /Date(<digits>000)/ pattern to the UTC-based
instant of its whole-second payload, and fails with the FormatError-class
ValueError on every string of any other shape. -/
theorem c5_decode (x : String) :
    (x = NONE_DATETIME → decodeDateTime x = .ok .noneV) ∧
    (x ≠ NONE_DATETIME → ∀ g, reDateFullmatch x.data = some g →
      decodeDateTime x = .ok (.aware ((digitsToNat g : ℤ) * 1000000))) ∧
    (x ≠ NONE_DATETIME → reDateFullmatch x.data = none →
      decodeDateTime x
        = .error (.valueError "expected a string of the form /Date(milliseconds)/")) := by
  refine ⟨fun h => ?_, fun h g hg => ?_, fun h hg => ?_⟩
  · simp [decodeDateTime, datetimeValidator, h]
  · simp [decodeDateTime, datetimeValidator, h, hg, coerceSecondsString]
  · simp [decodeDateTime, datetimeValidator, h, hg]

/-- C5 witness: the three decode branches at concrete strings. -/
theorem c5_witness :
    decodeDateTime NONE_DATETIME = .ok .noneV ∧
    decodeDateTime "/Date(1000)/" = .ok (.aware ((digitsToNat ['1'] : ℤ) * 1000000)) ∧
    (digitsToNat ['1'] : ℤ) * 1000000 = 1000000 ∧
    decodeDateTime "20240101"
      = .error (.valueError "expected a string of the form /Date(milliseconds)/") :=
  ⟨(c5_decode NONE_DATETIME).1 rfl,
   (c5_decode "/Date(1000)/").2.1 (by decide) ['1'] (by decide),
   by decide,
   (c5_decode "20240101").2.2 (by decide) (by decide)⟩

/-! ### Claim C6 -/

/-- C6: the encoder maps null to the sentinel string; a date-only value is
encoded exactly as the aware datetime at midnight UTC of that date (shown
structurally for every date, and concretely for 1970-01-02, whose wire
value is /Date(86400000)/); and a naive datetime fails with a ValueError
instead of producing a wire value. -/
theorem c6_encode (d : PyDate) (wall : ℤ) :
    datetimeSerializer .noneV = .ok NONE_DATETIME ∧
    datetimeSerializer (.dateOnly d) = datetimeSerializer (.aware d.midnightMicros) ∧
    datetimeSerializer (.dateOnly ⟨1970, 1, 2⟩) = .ok "/Date(86400000)/" ∧
    datetimeSerializer (.naive wall)
      = .error (.valueError "naive datetime is not supported") := by
  refine ⟨rfl, rfl, ?_, rfl⟩
  show Except.ok (wireOfSeconds (((PyDate.midnightMicros ⟨1970, 1, 2⟩ : ℤ) : ℚ) / 1000000)) = _
  have hm : (PyDate.midnightMicros ⟨1970, 1, 2⟩ : ℤ) = 86400000000 := by decide
  rw [hm, show ((86400000000 : ℤ) : ℚ) / 1000000 = ((86400 : ℕ) : ℚ) by norm_num]
  rw [wireOfSeconds_natCast]
  rfl

/-! ### Claim C4 -/

/-- C4 counterexample: the round trip fails for legal offset-carrying
datetime values as the claim states it: 1970-01-01T00:00:00.5+00:00 (epoch
microseconds 500000) encodes to /Date(0000)/ which decodes to the epoch
instant; 1969-12-31T23:59:59+00:00 (epoch microseconds -1000000) encodes to
/Date(-1000)/ which the decoder rejects; and the instant at the sentinel,
9999-12-31T00:00:00+00:00, encodes to the sentinel string which decodes to
null. -/
theorem c4_counterexample :
    (datetimeSerializer (.aware 500000) = .ok "/Date(0000)/" ∧
      decodeDateTime "/Date(0000)/" = .ok (.aware 0) ∧
      PyDateVal.aware 0 ≠ .aware 500000) ∧
    (datetimeSerializer (.aware (-1000000)) = .ok "/Date(-1000)/" ∧
      decodeDateTime "/Date(-1000)/"
        = .error (.valueError "expected a string of the form /Date(milliseconds)/")) ∧
    (datetimeSerializer (.aware 253402214400000000) = .ok NONE_DATETIME ∧
      decodeDateTime NONE_DATETIME = .ok .noneV ∧
      PyDateVal.noneV ≠ .aware 253402214400000000) := by
  have hf : ⌊(1 : ℚ) / 2⌋ = 0 := by norm_num
  have r1 : roundHalfEven ((1 : ℚ) / 2) = 0 := by
    unfold roundHalfEven
    rw [hf]
    norm_num
  refine ⟨⟨?_, rfl, by decide⟩, ⟨?_, rfl⟩, ⟨?_, rfl, by decide⟩⟩
  · show Except.ok (wireOfSeconds (((500000 : ℤ) : ℚ) / 1000000)) = _
    rw [show ((500000 : ℤ) : ℚ) / 1000000 = (1 : ℚ) / 2 by norm_num]
    unfold wireOfSeconds fmtDot0f
    rw [r1, if_neg (by norm_num)]
    rfl
  · show Except.ok (wireOfSeconds (((-1000000 : ℤ) : ℚ) / 1000000)) = _
    rw [show ((-1000000 : ℤ) : ℚ) / 1000000 = ((-1 : ℤ) : ℚ) by norm_num]
    unfold wireOfSeconds fmtDot0f
    rw [roundHalfEven_intCast, if_pos (by norm_num)]
    rfl
  · show Except.ok (wireOfSeconds (((253402214400000000 : ℤ) : ℚ) / 1000000)) = _
    rw [show ((253402214400000000 : ℤ) : ℚ) / 1000000 = ((253402214400 : ℕ) : ℚ) by norm_num]
    rw [wireOfSeconds_natCast]
    exact congrArg Except.ok (by decide)

/-- C4 (amended): for every timezone-aware datetime value with whole-second
precision (zero microseconds), non-negative timestamp and instant other
than the sentinel second, decode ∘ encode is the identity on the instant
(Python compares aware datetimes by instant, which the embedding represents
directly as epoch microseconds); and null round-trips through the sentinel
string. -/
theorem c4_roundtrip (s : ℕ) (hs : s ≠ 253402214400) :
    (∃ w, datetimeSerializer (.aware (((s : ℕ) : ℤ) * 1000000)) = .ok w ∧
      decodeDateTime w = .ok (.aware (((s : ℕ) : ℤ) * 1000000))) ∧
    (datetimeSerializer .noneV = .ok NONE_DATETIME ∧
      decodeDateTime NONE_DATETIME = .ok .noneV) := by
  refine ⟨⟨⟨wireHead ++ natToDigits s ++ wireTail⟩, ?_, decode_wire_of_nat s hs⟩, rfl, rfl⟩
  show Except.ok (wireOfSeconds (((((s : ℕ) : ℤ) * 1000000 : ℤ) : ℚ) / 1000000)) = _
  rw [micros_div, wireOfSeconds_natCast]

/-- C4 witness: the round trip at 2023-11-14T22:13:20+00:00 (epoch second
1700000000) and at null. -/
theorem c4_witness :
    (∃ w, datetimeSerializer (.aware (((1700000000 : ℕ) : ℤ) * 1000000)) = .ok w ∧
      decodeDateTime w = .ok (.aware (((1700000000 : ℕ) : ℤ) * 1000000))) ∧
    (datetimeSerializer .noneV = .ok NONE_DATETIME ∧
      decodeDateTime NONE_DATETIME = .ok .noneV) :=
  c4_roundtrip 1700000000 (by decide)

/-! ### Claim C10 -/

/-- C10 counterexample: a timezone-aware value before the epoch is legal,
but its encoder output carries a minus sign and does not re-parse under the
decoder pattern: 1969-12-31T23:59:58+00:00 encodes to /Date(-2000)/, which
_RE_DATE refuses, so decode fails instead of recovering the value. -/
theorem c10_counterexample :
    datetimeSerializer (.aware (-2000000)) = .ok "/Date(-2000)/" ∧
    reDateFullmatch "/Date(-2000)/".data = none ∧
    decodeDateTime "/Date(-2000)/"
      = .error (.valueError "expected a string of the form /Date(milliseconds)/") := by
  refine ⟨?_, by decide, rfl⟩
  show Except.ok (wireOfSeconds (((-2000000 : ℤ) : ℚ) / 1000000)) = _
  rw [show ((-2000000 : ℤ) : ℚ) / 1000000 = ((-2 : ℤ) : ℚ) by norm_num]
  unfold wireOfSeconds fmtDot0f
  rw [roundHalfEven_intCast, if_pos (by norm_num)]
  rfl

/-- C10 (amended): for every timezone-aware value with a non-negative
instant whose POSIX timestamp rounds half-to-even to the whole second n,
the encoder emits /Date(<n>000)/ (n in decimal digits followed by the three
zero-digits); the output re-parses under the decoder pattern, decoding to
the instant at n whole seconds (unless n is the sentinel second); and a
value with non-zero microseconds therefore does not survive the round trip
unchanged. Values with a negative timestamp emit a minus sign that does not
re-parse (see the counterexample). -/
theorem c10_encode_reparse (em : ℤ) (n : ℕ) (h0 : 0 ≤ em)
    (hn : roundHalfEven ((em : ℚ) / 1000000) = (n : ℤ)) :
    datetimeSerializer (.aware em) = .ok ⟨wireHead ++ natToDigits n ++ wireTail⟩ ∧
    (n ≠ 253402214400 →
      decodeDateTime ⟨wireHead ++ natToDigits n ++ wireTail⟩
        = .ok (.aware (((n : ℕ) : ℤ) * 1000000))) ∧
    (em % 1000000 ≠ 0 → ((n : ℕ) : ℤ) * 1000000 ≠ em) := by
  refine ⟨?_, fun h => decode_wire_of_nat n h, fun h => by omega⟩
  show Except.ok (wireOfSeconds ((em : ℚ) / 1000000)) = _
  unfold wireOfSeconds fmtDot0f
  rw [hn, if_neg (not_lt.mpr (div_nonneg (by exact_mod_cast h0) (by norm_num)))]
  simp

/-- C10 witness: 1970-01-01T00:00:01.5+00:00 rounds half-to-even up to 2
whole seconds, re-parses to exactly 2 seconds, and so does not survive the
round trip. -/
theorem c10_witness :
    datetimeSerializer (.aware 1500000) = .ok ⟨wireHead ++ natToDigits 2 ++ wireTail⟩ ∧
    decodeDateTime ⟨wireHead ++ natToDigits 2 ++ wireTail⟩
      = .ok (.aware (((2 : ℕ) : ℤ) * 1000000)) ∧
    ((2 : ℕ) : ℤ) * 1000000 ≠ 1500000 ∧
    (⟨wireHead ++ natToDigits 2 ++ wireTail⟩ : String) = "/Date(2000)/" := by
  have hq : ((1500000 : ℤ) : ℚ) / 1000000 = 3 / 2 := by norm_num
  have hf : ⌊(3 : ℚ) / 2⌋ = 1 := by norm_num
  have hn : roundHalfEven (((1500000 : ℤ) : ℚ) / 1000000) = ((2 : ℕ) : ℤ) := by
    rw [hq]
    unfold roundHalfEven
    rw [hf]
    norm_num
  obtain ⟨h1, h2, h3⟩ := c10_encode_reparse 1500000 2 (by norm_num) hn
  exact ⟨h1, h2 (by decide), h3 (by decide), by decide⟩
